import Mathlib

/-!
# Verification of the product-search subsystem

Shallow embedding of the search code of the marketplace backend
(`services/search_utils.py`, `services/query_understanding.py`,
`routes/search.py`) together with proofs of the specified properties.

The catalog (`db.query(Product)...`) is modelled as a `List Product` in
query order; a filtered, limited query becomes `(catalog.filter cond).take n`.
The fuzzy scorers of the external `rapidfuzz` library are parameters
(`String → String → ℚ`): the code under verification treats them as opaque
score functions.
-/

/-! ## Python-style string primitives -/

/-- Is `pat` a contiguous sublist of `hay`?  This is Python's `pat in hay`
on strings, at the level of character lists. -/
def charsContain (pat : List Char) : List Char → Bool
  | [] => pat.isEmpty
  | c :: t => pat.isPrefixOf (c :: t) || charsContain pat t

/-- Python `pat in hay` for strings (substring test). -/
def strContains (hay pat : String) : Bool :=
  charsContain pat.data hay.data

/-- Python `s.startswith(pre)`. -/
def strStartsWith (s pre : String) : Bool :=
  pre.data.isPrefixOf s.data

/-- Helper for `pySplit`: accumulates the current word (reversed) while
scanning the remaining characters. -/
def pySplitAux : List Char → List Char → List String
  | [], cur => if cur.isEmpty then [] else [String.mk cur.reverse]
  | c :: rest, cur =>
    if c.isWhitespace then
      if cur.isEmpty then pySplitAux rest []
      else String.mk cur.reverse :: pySplitAux rest []
    else pySplitAux rest (c :: cur)

/-- Python `s.split()`: split on whitespace runs, dropping empty pieces. -/
def pySplit (s : String) : List String :=
  pySplitAux s.data []

/-- Python `s.strip()`: drop leading and trailing whitespace. -/
def pyStrip (s : String) : String :=
  String.mk
    (((s.data.dropWhile Char.isWhitespace).reverse.dropWhile
      Char.isWhitespace).reverse)

/-- Python `s.lower()`: characterwise lower-casing. -/
def pyLower (s : String) : String :=
  String.mk (s.data.map Char.toLower)

/-! ## Data model

From `models/Products.py` (the fields the search code reads).  `rating` and
`price` are `Float` columns that the code guards with truthiness tests, so
they are embedded as `Option ℚ`. -/

structure Product where
  id : Nat
  title : String
  description : String
  tags : List String
  features : List String
  is_active : Bool
  rating : Option ℚ
  price : Option ℚ
deriving Repr, DecidableEq

/-- `SearchResult` dataclass of `services/search_utils.py`. -/
structure SearchResult where
  product : Product
  match_type : String
  score : ℚ := 0
  matched_words : Option (List String) := none
deriving Repr, DecidableEq

/-! ## `services/search_utils.py` -/

/-- `rapidfuzz.process.extractOne` over a fixed scorer: scan the choices
keeping the first highest-scoring one (a strictly larger score replaces the
incumbent). -/
def extractOneAux (scorer : String → String → ℚ) (q : String)
    (best : String × ℚ) : List String → String × ℚ
  | [] => best
  | c :: cs =>
    extractOneAux scorer q
      (if scorer q c > best.2 then (c, scorer q c) else best) cs

/-- `rapidfuzz.process.extractOne`: `none` on an empty choice list,
otherwise the first choice attaining the maximal score. -/
def extractOne (scorer : String → String → ℚ) (q : String) :
    List String → Option (String × ℚ)
  | [] => none
  | c :: cs => some (extractOneAux scorer q (c, scorer q c) cs)

/-- `correct_typo` of `services/search_utils.py`.  `pRatio` and `fullRatio`
stand for `fuzz.partial_ratio` and `fuzz.ratio` of the external library. -/
def correct_typo (pRatio fullRatio : String → String → ℚ)
    (query : String) (candidates : List String) : String :=
  if query = "" ∨ candidates = [] then query
  else
    let queryWords := pySplit query
    let correctedWords := queryWords.map (fun word =>
      if word.length ≤ 2 then word
      else
        match extractOne pRatio word candidates with
        | some (title, score) =>
          if score > 60 then
            match extractOne fullRatio word (pySplit title) with
            | some (bw, _) => bw
            | none => word
          else word
        | none => word)
    String.intercalate " " correctedWords

/-- The character class `\w` of the Python regex in `extract_search_terms`
(word characters). -/
def isPyWordChar (c : Char) : Bool :=
  c.isAlphanum || c = '_'

/-- One character of `re.sub(r'[^\w\s\-]', ' ', query)`: anything that is
not a word character, whitespace or a hyphen becomes a space. -/
def cleanChar (c : Char) : Char :=
  if isPyWordChar c || c.isWhitespace || c = '-' then c else ' '

/-- `extract_search_terms` of `services/search_utils.py`. -/
def extract_search_terms (query : String) : List String :=
  if query = "" then []
  else
    let cleaned := String.mk (query.data.map cleanChar)
    (pySplit cleaned).filter (fun w => w.length > 1)

/-- `find_matching_words_in_title` of `services/search_utils.py`. -/
def find_matching_words_in_title (title : String)
    (query_terms : List String) : List String :=
  if title = "" ∨ query_terms = [] then []
  else query_terms.filter (fun t => strContains (pyLower title) (pyLower t))

/-- The consecutive-pair loop of `calculate_title_match_score`: how many
adjacent query-term pairs occur adjacently (lower-cased, space-joined) in
the lower-cased title. -/
def consecPairs (titleLower : String) (query_terms : List String) : Nat :=
  (query_terms.zip query_terms.tail).countP
    (fun p => strContains titleLower (pyLower p.1 ++ " " ++ pyLower p.2))

/-- The first-term-at-start test of `calculate_title_match_score`. -/
def startFlag (titleLower : String) (query_terms : List String) : Bool :=
  match query_terms with
  | [] => false
  | t0 :: _ =>
    strContains titleLower (pyLower t0) && strStartsWith titleLower (pyLower t0)

/-- `calculate_title_match_score` of `services/search_utils.py`.
`int(match_ratio * 100)` truncates a nonnegative ratio, i.e. floors it,
which over exact arithmetic is natural-number division. -/
def calculate_title_match_score (title : String)
    (query_terms matched_terms : List String) : Int :=
  if title = "" ∨ query_terms = [] then 0
  else
    let titleLower := pyLower title
    let ratioPart : Int := ((matched_terms.length * 100) / query_terms.length : Nat)
    let phrase := String.intercalate " " (query_terms.map pyLower)
    let phrasePart : Int := if strContains titleLower phrase then 50 else 0
    let consecPart : Int := 30 * (consecPairs titleLower query_terms : Nat)
    let startPart : Int := if startFlag titleLower query_terms then 40 else 0
    max (ratioPart + phrasePart + consecPart + startPart) 0

/-- The `type_scores` dictionary lookup (`.get(match_type, 0)`) of
`rank_products_by_relevance`. -/
def type_scores (mt : String) : ℚ :=
  if mt = "title_exact_phrase" then 200
  else if mt = "title_all_words" then 150
  else if mt = "title_some_words" then 100
  else if mt = "title_single_word" then 50
  else if mt = "other_field" then 40
  else if mt = "related" then 10
  else if mt = "broad_match" then 5
  else 0

/-- `result.matched_words or find_matching_words_in_title(...)` —
Python `or` falls through on `None` and on the empty list. -/
def matchedTermsOf (r : SearchResult) (query_terms : List String) : List String :=
  match r.matched_words with
  | some (w :: ws) => w :: ws
  | _ => find_matching_words_in_title r.product.title query_terms

/-- Base-score component of the per-result score in
`rank_products_by_relevance`. -/
def baseComponent (r : SearchResult) : ℚ :=
  type_scores r.match_type

/-- Title-match-quality component (`calculate_title_match_score`). -/
def titleComponent (r : SearchResult) (query_terms : List String) : ℚ :=
  (calculate_title_match_score r.product.title query_terms
    (matchedTermsOf r query_terms) : Int)

/-- `len(matched_terms) * 10` component (added only when the matched list
is nonempty, which changes nothing numerically). -/
def termCountComponent (r : SearchResult) (query_terms : List String) : ℚ :=
  let matched := matchedTermsOf r query_terms
  if matched ≠ [] then matched.length * 10 else 0

/-- `rating * 5` component, guarded by Python truthiness of `rating`. -/
def ratingComponent (r : SearchResult) : ℚ :=
  match r.product.rating with
  | some rt => if rt ≠ 0 then rt * 5 else 0
  | none => 0

/-- `+5` component for a truthy, positive price. -/
def priceComponent (r : SearchResult) : ℚ :=
  match r.product.price with
  | some p => if p ≠ 0 then (if p > 0 then 5 else 0) else 0
  | none => 0

/-- The score accumulated for one result by the loop body of
`rank_products_by_relevance`, written as the code writes it: start at 0,
add the base score, the title-quality score, the matched-term bonus, the
rating nudge and the price nudge. -/
def computeScore (r : SearchResult) (query_terms : List String) : ℚ :=
  let s0 : ℚ := 0
  let s1 := s0 + type_scores r.match_type
  let matched := matchedTermsOf r query_terms
  let s2 := s1 + ((calculate_title_match_score r.product.title query_terms matched : Int) : ℚ)
  let s3 := if matched ≠ [] then s2 + matched.length * 10 else s2
  let s4 := match r.product.rating with
    | some rt => if rt ≠ 0 then s3 + rt * 5 else s3
    | none => s3
  match r.product.price with
  | some p => if p ≠ 0 then (if p > 0 then s4 + 5 else s4) else s4
  | none => s4

/-- One loop iteration of `rank_products_by_relevance`: store the computed
score on the result. -/
def scoreResult (query_terms : List String) (r : SearchResult) : SearchResult :=
  { r with score := computeScore r query_terms }

/-- The descending comparison used by
`sorted(products, key=lambda x: x.score, reverse=True)`. -/
def scoreGE (a b : SearchResult) : Prop :=
  b.score ≤ a.score

instance : DecidableRel scoreGE := fun a b => inferInstanceAs (Decidable (b.score ≤ a.score))

instance : IsTotal SearchResult scoreGE := ⟨fun a b => le_total b.score a.score⟩

instance : IsTrans SearchResult scoreGE := ⟨fun _ _ _ h1 h2 => le_trans h2 h1⟩

/-- `rank_products_by_relevance` of `services/search_utils.py`: score each
result, then stable-sort by score descending (Python's `sorted` is a stable
sort; any stable sort computes the same list, here insertion sort). -/
def rank_products_by_relevance (products : List SearchResult)
    (query_terms : List String) : List SearchResult :=
  List.insertionSort scoreGE (products.map (scoreResult query_terms))

/-- A limited catalog query: `db.query(Product).filter(cond).limit(n).all()`
over the catalog snapshot in query order. -/
def dbQueryLimit (catalog : List Product) (cond : Product → Bool)
    (n : Nat) : List Product :=
  (catalog.filter cond).take n

/-- The lower-cased query terms of length > 1 used to build the phase-2 and
phase-3 filter conditions of `get_title_match_products`. -/
def longTermsLower (query_terms : List String) : List String :=
  (query_terms.map pyLower).filter (fun t => t.length > 1)

/-- One matching phase's accumulation loop of `get_title_match_products`:
append each fetched product not yet seen, recording its id. -/
def addPhase (mt : String) (query_terms : List String) :
    List Product → List SearchResult × List Nat → List SearchResult × List Nat
  | [], acc => acc
  | p :: ps, acc =>
    if acc.2.contains p.id then addPhase mt query_terms ps acc
    else
      addPhase mt query_terms ps
        (acc.1 ++ [{ product := p, match_type := mt, score := 0,
                     matched_words := some (find_matching_words_in_title p.title query_terms) }],
         p.id :: acc.2)

/-- State after PHASE 1 (exact phrase) of `get_title_match_products`. -/
def titleAcc1 (catalog : List Product) (query_terms : List String)
    (limit : Nat) : List SearchResult × List Nat :=
  let phrase := String.intercalate " " query_terms
  let phrase_matches := dbQueryLimit catalog
    (fun p => p.is_active && strContains (pyLower p.title) (pyLower phrase))
    (limit / 2)
  addPhase "title_exact_phrase" query_terms phrase_matches ([], [])

/-- State after PHASE 2 (all terms, AND) of `get_title_match_products`:
runs only while the accumulated count is below `limit` and at least one
term survives the length filter. -/
def titleAcc2 (catalog : List Product) (query_terms : List String)
    (limit : Nat) : List SearchResult × List Nat :=
  let acc1 := titleAcc1 catalog query_terms limit
  if acc1.1.length < limit then
    let conds := longTermsLower query_terms
    if conds ≠ [] then
      let prods := dbQueryLimit catalog
        (fun p => p.is_active && conds.all (fun t => strContains (pyLower p.title) t))
        (limit - acc1.1.length)
      addPhase "title_all_words" query_terms prods acc1
    else acc1
  else acc1

/-- State after PHASE 3 (some terms, OR) of `get_title_match_products`. -/
def titleAcc3 (catalog : List Product) (query_terms : List String)
    (limit : Nat) : List SearchResult × List Nat :=
  let acc2 := titleAcc2 catalog query_terms limit
  if acc2.1.length < limit then
    let conds := longTermsLower query_terms
    if conds ≠ [] then
      let prods := dbQueryLimit catalog
        (fun p => p.is_active && conds.any (fun t => strContains (pyLower p.title) t))
        (limit - acc2.1.length)
      addPhase "title_some_words" query_terms prods acc2
    else acc2
  else acc2

/-- `get_title_match_products` of `services/search_utils.py`. -/
def get_title_match_products (catalog : List Product)
    (query_terms : List String) (limit : Nat) : List SearchResult :=
  if query_terms = [] then []
  else (titleAcc3 catalog query_terms limit).1

/-- `get_other_field_products` of `services/search_utils.py`: description /
tags / features matches, excluding ids already matched in a title phase
(the exclusion filter is only added when `exclude_ids` is nonempty, as in
the code's `if exclude_ids:`). -/
def get_other_field_products (catalog : List Product)
    (query_terms : List String) (exclude_ids : List Nat)
    (limit : Nat) : List SearchResult :=
  if query_terms = [] then []
  else
    let conds := query_terms.filter (fun t => ¬ t.length < 2)
    if conds = [] then []
    else
      let fieldCond := fun (p : Product) => conds.any (fun t =>
        strContains (pyLower p.description) (pyLower t)
          || p.tags.contains t || p.features.contains t)
      let cond := fun (p : Product) =>
        p.is_active && fieldCond p
          && (if exclude_ids ≠ [] then !(exclude_ids.contains p.id) else true)
      let other_products := dbQueryLimit catalog cond limit
      other_products.map (fun p =>
        { product := p, match_type := "other_field", score := 0,
          matched_words := some query_terms })

/-! ## `routes/search.py` -/

/-- The catalog-access capability available to `search_products_endpoint`:
the multi-field query the code builds (`mainQuery`, yielding the fetched
page together with the total match count), and the simplest title-substring
query the data store could equally serve (`titleQuery`).  Either call can
fail (transport error), embedded with `Except`. -/
structure DbCap where
  mainQuery : Except String (List Product × Nat)
  titleQuery : Except String (List Product)

/-- Response dictionary shape of `search_products_endpoint` (the fields a
claim reads). -/
structure SimpleSearchResponse where
  query : String
  search_type : Option String
  products : List Product
  total_results : Nat
  error : Option String
deriving Repr, DecidableEq

/-- `search_products_endpoint` of `routes/search.py`: empty queries get the
`empty_query` response; otherwise the built catalog query runs, and any
exception is caught by the `except` block, which returns the degraded
response (`error`, `products: []`) directly — the `titleQuery` capability
is never consulted. -/
def search_products_endpoint (query : String) (db : DbCap) :
    SimpleSearchResponse :=
  if query = "" ∨ pyStrip query = "" then
    { query := query, search_type := some "empty_query", products := [],
      total_results := 0, error := none }
  else
    match db.mainQuery with
    | .ok (prods, total) =>
      { query := query, search_type := some "simple_search", products := prods,
        total_results := total, error := none }
    | .error e =>
      { query := query, search_type := none, products := [],
        total_results := 0, error := some ("Search failed: " ++ e) }

/-- Response shapes of `exact_search_endpoint`: the empty-query dictionary
carries no `showing_results` key, the result dictionary does. -/
inductive ExactResponse where
  | empty (query : String) (products : List Product) (total : Nat)
  | results (query : String) (products : List Product) (total showing : Nat)
deriving Repr, DecidableEq

/-- `total_results` of either response shape. -/
def ExactResponse.total : ExactResponse → Nat
  | .empty _ _ t => t
  | .results _ _ t _ => t

/-- `showing_results` of a result response (an empty-query response has no
such key; read it as 0 results shown). -/
def ExactResponse.showing : ExactResponse → Nat
  | .empty _ _ _ => 0
  | .results _ _ _ s => s

/-- The three fallback stages of `exact_search_endpoint` producing
`exact_products` (the catalog list stands for the `created_at`-descending
query order). -/
def exactStage3 (catalog : List Product) (search_query : String) :
    List Product :=
  let stage1 := catalog.filter
    (fun p => p.is_active && strContains (pyLower p.title) search_query)
  let stage2 :=
    if stage1 = [] then
      catalog.filter
        (fun p => p.is_active && strContains (pyLower p.description) search_query)
    else stage1
  let query_words := pySplit search_query
  if stage2 = [] ∧ query_words.length > 1 then
    let conds := query_words.filter (fun w => w.length > 2)
    if conds ≠ [] then
      catalog.filter
        (fun p => p.is_active && conds.any (fun w => strContains (pyLower p.title) w))
    else stage2
  else stage2

/-- `exact_search_endpoint` of `routes/search.py`: three fallback queries,
then Python slice pagination `exact_products[skip : skip + limit]`,
`total_results = len(exact_products)`, `showing_results = len(products)`. -/
def exact_search_endpoint (query : String) (limit skip : Nat)
    (catalog : List Product) : ExactResponse :=
  if query = "" ∨ pyStrip query = "" then .empty query [] 0
  else
    let search_query := pyLower (pyStrip query)
    let exact_products := exactStage3 catalog search_query
    let products := (exact_products.drop skip).take limit
    .results query products exact_products.length products.length

/-! ## `services/query_understanding.py` -/

/-- `QueryUnderstandingService.correct_typo`: whole-query correction via
`rapidfuzz.process.extractOne` with the `WRatio` scorer (a parameter
here), accepting the best match only above the 60 threshold. -/
def QueryUnderstandingService.correct_typo (wratio : String → String → ℚ)
    (query : String) (choices : List String) : String :=
  if query = "" ∨ choices = [] then query
  else
    match extractOne wratio query choices with
    | some (best, score) => if score > 60 then best else query
    | none => query

/-! ## Concrete catalog items used by witnesses and counterexamples -/

def prodRedTea : Product :=
  { id := 1, title := "cup of red tea", description := "", tags := [],
    features := [], is_active := true, rating := none, price := none }

def prodRedCup : Product :=
  { id := 2, title := "red cup", description := "", tags := [],
    features := [], is_active := true, rating := none, price := none }

def prodCupHolder : Product :=
  { id := 3, title := "cup holder", description := "", tags := [],
    features := [], is_active := true, rating := none, price := none }

/-- A rated, priced catalog item discovered in the some-words phase, with a
duplicated query term; exercises every score component at once. -/
def someWordsResult : SearchResult :=
  { product := { id := 7, title := "ab cd", description := "", tags := [],
                 features := [], is_active := true, rating := some 4,
                 price := some 10 },
    match_type := "title_some_words", score := 0, matched_words := none }

/-! ## Helper lemmas -/

theorem extractOneAux_fst_eq_or_mem (scorer : String → String → ℚ)
    (q : String) :
    ∀ (l : List String) (best : String × ℚ),
      (extractOneAux scorer q best l).1 = best.1 ∨
        (extractOneAux scorer q best l).1 ∈ l
  | [], best => Or.inl rfl
  | c :: cs, best => by
    rw [extractOneAux]
    by_cases hc : scorer q c > best.2
    · rw [if_pos hc]
      rcases extractOneAux_fst_eq_or_mem scorer q cs (c, scorer q c) with h | h
      · exact Or.inr (by rw [h]; exact List.mem_cons_self c cs)
      · exact Or.inr (List.mem_cons_of_mem c h)
    · rw [if_neg hc]
      rcases extractOneAux_fst_eq_or_mem scorer q cs best with h | h
      · exact Or.inl h
      · exact Or.inr (List.mem_cons_of_mem c h)

theorem extractOne_fst_mem (scorer : String → String → ℚ) (q : String)
    {l : List String} {r : String × ℚ} (h : extractOne scorer q l = some r) :
    r.1 ∈ l := by
  match l with
  | [] => simp [extractOne] at h
  | c :: cs =>
    rw [extractOne] at h
    injection h with h
    rcases extractOneAux_fst_eq_or_mem scorer q cs (c, scorer q c) with h1 | h1
    · exact h ▸ h1 ▸ List.mem_cons_self c cs
    · exact h ▸ List.mem_cons_of_mem c h1

/-! ## Claims -/

/-- C7: `correct_typo` is total over the embedding (it is a Lean function
into `String`, with the `extractOne = none` and empty-title-words cases
handled), and on an empty query or an empty reference set it returns the
input query unchanged. -/
theorem correct_typo_total_empty (pRatio fullRatio : String → String → ℚ)
    (query : String) (candidates : List String)
    (h : query = "" ∨ candidates = []) :
    correct_typo pRatio fullRatio query candidates = query := by
  rw [correct_typo, if_pos h]

theorem correct_typo_total_empty_witness :
    correct_typo (fun _ _ => 0) (fun _ _ => 0) "" ["samsung phone"] = "" ∧
      correct_typo (fun _ _ => 0) (fun _ _ => 0) "samsng" [] = "samsng" :=
  ⟨correct_typo_total_empty _ _ _ _ (Or.inl rfl),
   correct_typo_total_empty _ _ _ _ (Or.inr rfl)⟩

/-- C10: `QueryUnderstandingService.correct_typo` never invents text — its
result is the input query or an element of the choices; it is the query
unchanged on empty inputs; and whenever `extractOne` yields a best match,
the result is that candidate exactly when the score exceeds 60, and the
unchanged query otherwise. -/
theorem qu_correct_typo_no_invention (wratio : String → String → ℚ)
    (query : String) (choices : List String) :
    (QueryUnderstandingService.correct_typo wratio query choices = query ∨
      QueryUnderstandingService.correct_typo wratio query choices ∈ choices) ∧
    ((query = "" ∨ choices = []) →
      QueryUnderstandingService.correct_typo wratio query choices = query) ∧
    (∀ b s, query ≠ "" → extractOne wratio query choices = some (b, s) →
      QueryUnderstandingService.correct_typo wratio query choices =
        if s > 60 then b else query) := by
  refine ⟨?_, ?_, ?_⟩
  · rw [QueryUnderstandingService.correct_typo]
    by_cases h : query = "" ∨ choices = []
    · rw [if_pos h]; exact Or.inl rfl
    · rw [if_neg h]
      rcases he : extractOne wratio query choices with _ | ⟨b, s⟩
      · exact Or.inl rfl
      · show (if s > 60 then b else query) = query ∨
          (if s > 60 then b else query) ∈ choices
        by_cases hs : s > 60
        · rw [if_pos hs]
          exact Or.inr (extractOne_fst_mem wratio query he)
        · rw [if_neg hs]; exact Or.inl rfl
  · intro h
    rw [QueryUnderstandingService.correct_typo, if_pos h]
  · intro b s hq he
    have hc : choices ≠ [] := by
      intro hnil
      rw [hnil] at he
      simp [extractOne] at he
    rw [QueryUnderstandingService.correct_typo,
      if_neg (by simp [hq, hc]), he]

theorem qu_correct_typo_no_invention_witness :
    QueryUnderstandingService.correct_typo (fun _ _ => 0) "" ["abc"] = "" ∧
      QueryUnderstandingService.correct_typo
        (fun _ b => if b = "good" then 100 else 0) "gud" ["bad", "good"] =
        "good" := by
  constructor
  · exact (qu_correct_typo_no_invention (fun _ _ => 0) "" ["abc"]).2.1
      (Or.inl rfl)
  · have h := (qu_correct_typo_no_invention
      (fun _ b => if b = "good" then 100 else 0) "gud" ["bad", "good"]).2.2
      "good" 100 (by decide) (by decide)
    rw [h]; decide

/-- C2 counterexample: the claimed base score `80 + 20×matched-term-count`
for the pairwise-partial phase does not exist in the code — the some-words
match type carries a flat base of 100 (at matched-term-count 2 the claim
predicts 120). -/
theorem partial_base_score_counterexample :
    type_scores "title_some_words" = 100 ∧
      ¬ type_scores "title_some_words" = 80 + 20 * 2 := by
  constructor
  · rfl
  · rw [show type_scores "title_some_words" = 100 from rfl]
    norm_num

/-- C2 (amended): the base scores contributed per match type are flat
constants — 200 for an exact-phrase title match, 150 for an all-terms title
match, 100 for a some-words partial title match, 50 for a single-term
match, and 40 for an other-field match. -/
theorem base_score_table :
    type_scores "title_exact_phrase" = 200 ∧
      type_scores "title_all_words" = 150 ∧
      type_scores "title_some_words" = 100 ∧
      type_scores "title_single_word" = 50 ∧
      type_scores "other_field" = 40 := by
  refine ⟨rfl, rfl, rfl, rfl, rfl⟩

/-- C6 counterexample: when the catalog query fails, the endpoint returns
the degraded response immediately even though the simplest title-substring
query would have succeeded — no fallback retry exists in the code. -/
theorem search_failure_no_retry_counterexample :
    (DbCap.mk (Except.error "boom") (Except.ok [prodRedCup])).titleQuery =
        Except.ok [prodRedCup] ∧
      (search_products_endpoint "red cup"
          (DbCap.mk (Except.error "boom") (Except.ok [prodRedCup]))).products
        = [] ∧
      (search_products_endpoint "red cup"
          (DbCap.mk (Except.error "boom") (Except.ok [prodRedCup]))).error
        = some "Search failed: boom" := by
  refine ⟨rfl, ?_, ?_⟩ <;> rfl

/-- C6 (amended): when the catalog query raises during a nonempty-query
search, the endpoint catches the exception and returns the well-formed
degraded response — explanatory `Search failed: ...` message, empty
products, zero totals — without attempting any fallback query and without
propagating the fault (the embedding is a total function into
`SimpleSearchResponse`). -/
theorem search_failure_degraded (query : String) (db : DbCap) (e : String)
    (hq : pyStrip query ≠ "") (he : db.mainQuery = Except.error e) :
    search_products_endpoint query db =
      { query := query, search_type := none, products := [],
        total_results := 0, error := some ("Search failed: " ++ e) } := by
  have hq0 : ¬(query = "" ∨ pyStrip query = "") := by
    rintro (rfl | h)
    · exact hq rfl
    · exact hq h
  rw [search_products_endpoint, if_neg hq0, he]

theorem pySplitAux_whitespace :
    ∀ l : List Char, (∀ c ∈ l, c.isWhitespace) → pySplitAux l [] = []
  | [], _ => rfl
  | c :: rest, h => by
    have hc : c.isWhitespace = true := h c (List.mem_cons_self c rest)
    rw [pySplitAux, if_pos hc]
    exact pySplitAux_whitespace rest (fun x hx => h x (List.mem_cons_of_mem c hx))

/-- C8: term extraction returns exactly the whitespace-delimited tokens of
the query after every character that is not a word character, whitespace or
a hyphen is replaced by a space, keeping only tokens of length ≥ 2 (in
original order, duplicates preserved, as a `List`); a whitespace-only (or
empty) query yields the empty list. -/
theorem extract_terms_spec (query : String) :
    extract_search_terms query =
      (pySplit (String.mk (query.data.map cleanChar))).filter
        (fun w => 2 ≤ w.length) ∧
    ((∀ c ∈ query.data, c.isWhitespace) → extract_search_terms query = []) := by
  constructor
  · rw [extract_search_terms]
    by_cases h : query = ""
    · subst h; rfl
    · rw [if_neg h]; exact rfl
  · intro h
    rw [extract_search_terms]
    by_cases hq : query = ""
    · rw [if_pos hq]
    · rw [if_neg hq]
      have hsplit : pySplit (String.mk (query.data.map cleanChar)) = [] := by
        rw [pySplit]
        apply pySplitAux_whitespace
        intro c hc
        rcases List.mem_map.1 hc with ⟨c0, hc0, rfl⟩
        have hw := h c0 hc0
        rw [cleanChar, if_pos (by rw [hw]; simp)]
        exact hw
      show (pySplit (String.mk (query.data.map cleanChar))).filter
          (fun w => decide (w.length > 1)) = []
      rw [hsplit]
      rfl

theorem extract_terms_spec_witness :
    (∀ c ∈ ("  \t ").data, c.isWhitespace) ∧
      extract_search_terms "  \t " = [] :=
  ⟨by decide, (extract_terms_spec "  \t ").2 (by decide)⟩

theorem filter_score_orderedInsert (s : ℚ) (a : SearchResult) :
    ∀ l : List SearchResult,
      (List.orderedInsert scoreGE a l).filter (fun r => decide (r.score = s)) =
        (a :: l).filter (fun r => decide (r.score = s))
  | [] => rfl
  | x :: xs => by
    rw [List.orderedInsert]
    by_cases hax : scoreGE a x
    · rw [if_pos hax]
    · rw [if_neg hax]
      have hlt : a.score < x.score := lt_of_not_le hax
      by_cases ha : a.score = s
      · by_cases hx : x.score = s
        · exact absurd (ha.trans hx.symm) (ne_of_lt hlt)
        · simp [List.filter_cons, filter_score_orderedInsert s a xs, ha, hx]
      · by_cases hx : x.score = s
        · simp [List.filter_cons, filter_score_orderedInsert s a xs, ha, hx]
        · simp [List.filter_cons, filter_score_orderedInsert s a xs, ha, hx]

theorem filter_score_insertionSort (s : ℚ) :
    ∀ l : List SearchResult,
      (List.insertionSort scoreGE l).filter (fun r => decide (r.score = s)) =
        l.filter (fun r => decide (r.score = s))
  | [] => rfl
  | x :: xs => by
    rw [List.insertionSort,
      filter_score_orderedInsert s x (List.insertionSort scoreGE xs)]
    simp [List.filter_cons, filter_score_insertionSort s xs]

/-- The four-component score the specification claims (base score,
title-quality bonus, 10 per DISTINCT matched term, rating × 5 when the
item has a rating); stated from the spec's words for comparison with the
code's `computeScore`. -/
def claimedFourComponentScore (r : SearchResult)
    (query_terms : List String) : ℚ :=
  type_scores r.match_type
    + ((calculate_title_match_score r.product.title query_terms
        (matchedTermsOf r query_terms) : Int) : ℚ)
    + 10 * ((matchedTermsOf r query_terms).dedup.length : ℚ)
    + (match r.product.rating with
       | some rt => rt * 5
       | none => 0)

theorem computeScore_eq_components (r : SearchResult)
    (query_terms : List String) :
    computeScore r query_terms =
      baseComponent r + titleComponent r query_terms
        + termCountComponent r query_terms + ratingComponent r
        + priceComponent r := by
  rw [computeScore, baseComponent, titleComponent, termCountComponent,
    ratingComponent, priceComponent]
  cases hrt : r.product.rating with
  | none =>
    cases hp : r.product.price with
    | none => dsimp only; split_ifs <;> ring
    | some p => dsimp only; split_ifs <;> ring
  | some rt =>
    cases hp : r.product.price with
    | none => dsimp only; split_ifs <;> ring
    | some p => dsimp only; split_ifs <;> ring

theorem baseComponent_nonneg (r : SearchResult) : 0 ≤ baseComponent r := by
  rw [baseComponent, type_scores]
  split_ifs <;> norm_num

theorem titleComponent_nonneg (r : SearchResult)
    (query_terms : List String) : 0 ≤ titleComponent r query_terms := by
  rw [titleComponent]
  have h : (0 : Int) ≤ calculate_title_match_score r.product.title
      query_terms (matchedTermsOf r query_terms) := by
    rw [calculate_title_match_score]
    split_ifs
    · exact le_refl 0
    · exact le_max_right _ 0
  exact_mod_cast h

theorem termCountComponent_nonneg (r : SearchResult)
    (query_terms : List String) : 0 ≤ termCountComponent r query_terms := by
  rw [termCountComponent]
  split_ifs
  · positivity
  · exact le_refl 0

theorem priceComponent_nonneg (r : SearchResult) : 0 ≤ priceComponent r := by
  rw [priceComponent]
  cases r.product.price with
  | none => exact le_refl 0
  | some p =>
    show (0 : ℚ) ≤ if p ≠ 0 then if p > 0 then 5 else 0 else 0
    split_ifs <;> norm_num

/-- C3 counterexample: on a some-words candidate with a positive price and
a duplicated matched term, the code's score (285) is not the sum of the
four claimed components (270): the code adds a fifth `+5` component for a
positive price, and its per-term bonus counts occurrences, not distinct
terms. -/
theorem score_components_counterexample :
    computeScore someWordsResult ["ab", "ab"] = 285 ∧
      claimedFourComponentScore someWordsResult ["ab", "ab"] = 270 ∧
      ¬ computeScore someWordsResult ["ab", "ab"] =
          claimedFourComponentScore someWordsResult ["ab", "ab"] := by
  have hm : matchedTermsOf someWordsResult ["ab", "ab"] = ["ab", "ab"] := by
    decide
  have hcalc : calculate_title_match_score someWordsResult.product.title
      ["ab", "ab"] ["ab", "ab"] = 140 := by decide
  have hb : baseComponent someWordsResult = 100 := rfl
  have ht : titleComponent someWordsResult ["ab", "ab"] = 140 := by
    rw [titleComponent, hm, hcalc]; norm_num
  have htc : termCountComponent someWordsResult ["ab", "ab"] = 20 := by
    rw [termCountComponent, hm,
      if_pos (by simp : (["ab", "ab"] : List String) ≠ [])]
    norm_num
  have hr : ratingComponent someWordsResult = 20 := by
    rw [ratingComponent]
    show (if (4 : ℚ) ≠ 0 then (4 : ℚ) * 5 else 0) = 20
    norm_num
  have hp : priceComponent someWordsResult = 5 := by
    rw [priceComponent]
    show (if (10 : ℚ) ≠ 0 then if (10 : ℚ) > 0 then (5 : ℚ) else 0 else 0) = 5
    norm_num
  have h1 : computeScore someWordsResult ["ab", "ab"] = 285 := by
    rw [computeScore_eq_components, hb, ht, htc, hr, hp]; norm_num
  have h2 : claimedFourComponentScore someWordsResult ["ab", "ab"] = 270 := by
    rw [claimedFourComponentScore, hm, hcalc]
    show (100 : ℚ) + ((140 : Int) : ℚ)
        + 10 * ((["ab", "ab"].dedup).length : ℚ) + (4 : ℚ) * 5 = 270
    rw [show (["ab", "ab"].dedup) = ["ab"] from rfl]
    norm_num
  refine ⟨h1, h2, ?_⟩
  rw [h1, h2]; norm_num

/-- C3 (amended): the final score is exactly the sum of FIVE additive
components — (a) the phase base score, (b) the title-match-quality bonus,
(c) 10 per matched-term OCCURRENCE (duplicates counted), (d) rating × 5
when the item has a (truthy) rating, and (e) 5 when the item has a
positive price; components (a), (b), (c), (e) are never negative, and (d)
is nonnegative whenever the stored rating is nonnegative (ratings are
0–5 in the data model). -/
theorem score_decomposition (r : SearchResult) (query_terms : List String) :
    computeScore r query_terms =
        baseComponent r + titleComponent r query_terms
          + termCountComponent r query_terms + ratingComponent r
          + priceComponent r ∧
      0 ≤ baseComponent r ∧
      0 ≤ titleComponent r query_terms ∧
      0 ≤ termCountComponent r query_terms ∧
      0 ≤ priceComponent r ∧
      ((∀ rt, r.product.rating = some rt → 0 ≤ rt) →
        0 ≤ ratingComponent r) := by
  refine ⟨computeScore_eq_components r query_terms, baseComponent_nonneg r,
    titleComponent_nonneg r query_terms,
    termCountComponent_nonneg r query_terms, priceComponent_nonneg r, ?_⟩
  intro h
  rw [ratingComponent]
  cases hrt : r.product.rating with
  | none => exact le_refl 0
  | some rt =>
    have hge := h rt hrt
    show (0 : ℚ) ≤ if rt ≠ 0 then rt * 5 else 0
    split_ifs
    · exact mul_nonneg hge (by norm_num)
    · exact le_refl 0

theorem score_decomposition_witness :
    computeScore someWordsResult ["ab"] =
        baseComponent someWordsResult + titleComponent someWordsResult ["ab"]
          + termCountComponent someWordsResult ["ab"]
          + ratingComponent someWordsResult + priceComponent someWordsResult ∧
      0 ≤ ratingComponent someWordsResult := by
  have h := score_decomposition someWordsResult ["ab"]
  refine ⟨h.1, h.2.2.2.2.2 ?_⟩
  intro rt hrt
  have : (4 : ℚ) = rt := by
    have h4 : someWordsResult.product.rating = some 4 := rfl
    rw [h4] at hrt
    exact Option.some.inj hrt
  rw [← this]
  norm_num

/-- C4: ranking returns a permutation of its (score-updated) input
candidate list, sorted by non-increasing score with score as the sole sort
key, and — stability — for every score value the candidates carrying that
score appear in their original discovery order (the filtered sublists
coincide). -/
theorem ranking_stable_sorted_perm (products : List SearchResult)
    (query_terms : List String) :
    (rank_products_by_relevance products query_terms).Perm
        (products.map (scoreResult query_terms)) ∧
      List.Sorted scoreGE (rank_products_by_relevance products query_terms) ∧
      ∀ s : ℚ,
        (rank_products_by_relevance products query_terms).filter
            (fun r => decide (r.score = s)) =
          (products.map (scoreResult query_terms)).filter
            (fun r => decide (r.score = s)) :=
  ⟨List.perm_insertionSort scoreGE _, List.sorted_insertionSort scoreGE _,
    fun s => filter_score_insertionSort s _⟩

/-- C9: for a nonempty query, `exact_search_endpoint` reports
`showing_results = min(limit, total_results - skip)` when
`skip < total_results`, and 0 otherwise, where `total_results` counts the
matches before pagination. -/
theorem pagination_invariant (query : String) (limit skip : Nat)
    (catalog : List Product) (hq : pyStrip query ≠ "") :
    (exact_search_endpoint query limit skip catalog).showing =
      if skip < (exact_search_endpoint query limit skip catalog).total
      then min limit ((exact_search_endpoint query limit skip catalog).total - skip)
      else 0 := by
  have hq0 : ¬(query = "" ∨ pyStrip query = "") := by
    rintro (rfl | h)
    · exact hq rfl
    · exact hq h
  have heq : exact_search_endpoint query limit skip catalog =
      ExactResponse.results query
        (((exactStage3 catalog (pyLower (pyStrip query))).drop skip).take limit)
        (exactStage3 catalog (pyLower (pyStrip query))).length
        ((((exactStage3 catalog (pyLower (pyStrip query))).drop skip).take
          limit)).length := by
    rw [exact_search_endpoint, if_neg hq0]
  rw [heq]
  simp only [ExactResponse.showing, ExactResponse.total]
  rw [List.length_take, List.length_drop]
  rcases Nat.lt_or_ge skip (exactStage3 catalog (pyLower (pyStrip query))).length
    with h | h
  · rw [if_pos h]
  · rw [if_neg (not_lt.2 h), Nat.sub_eq_zero_of_le h]
    simp

theorem pagination_invariant_witness :
    pyStrip "red" ≠ "" ∧
      (exact_search_endpoint "red" 2 1 [prodRedTea, prodRedCup]).showing =
        if 1 < (exact_search_endpoint "red" 2 1 [prodRedTea, prodRedCup]).total
        then min 2
          ((exact_search_endpoint "red" 2 1 [prodRedTea, prodRedCup]).total - 1)
        else 0 :=
  ⟨by decide, pagination_invariant "red" 2 1 [prodRedTea, prodRedCup] (by decide)⟩

theorem search_failure_degraded_witness :
    search_products_endpoint "red cup"
        (DbCap.mk (Except.error "io down") (Except.ok [])) =
      { query := "red cup", search_type := none, products := [],
        total_results := 0, error := some ("Search failed: " ++ "io down") } :=
  search_failure_degraded "red cup"
    (DbCap.mk (Except.error "io down") (Except.ok [])) "io down"
    (by decide) rfl


theorem addPhase_inv (mt : String) (query_terms : List String) :
    ∀ (ps : List Product) (acc : List SearchResult × List Nat),
      (∀ r ∈ acc.1, r.product.id ∈ acc.2) →
      (acc.1.map (fun r => r.product.id)).Nodup →
      (∀ r ∈ (addPhase mt query_terms ps acc).1,
          r.product.id ∈ (addPhase mt query_terms ps acc).2) ∧
        ((addPhase mt query_terms ps acc).1.map
          (fun r => r.product.id)).Nodup
  | [], acc => fun h1 h2 => ⟨h1, h2⟩
  | p :: ps, acc => fun h1 h2 => by
    rw [addPhase]
    by_cases hc : acc.2.contains p.id = true
    · rw [if_pos hc]
      exact addPhase_inv mt query_terms ps acc h1 h2
    · rw [if_neg hc]
      have hnotmem : p.id ∉ acc.2 := fun hmem => hc (List.elem_iff.2 hmem)
      apply addPhase_inv mt query_terms ps
      · intro r hr
        rcases List.mem_append.1 hr with h | h
        · exact List.mem_cons_of_mem _ (h1 r h)
        · rcases List.mem_singleton.1 h with rfl
          exact List.mem_cons_self _ _
      · rw [List.map_append, List.nodup_append]
        refine ⟨h2, List.nodup_singleton _, ?_⟩
        intro a ha hb
        have hb' : a = p.id := by simpa using hb
        subst hb'
        rcases List.mem_map.1 ha with ⟨r, hr, hid⟩
        apply hnotmem
        have hid' : r.product.id = p.id := by simpa using hid
        rw [← hid']
        exact h1 r hr

theorem titleAcc1_inv (catalog : List Product) (query_terms : List String)
    (limit : Nat) :
    (∀ r ∈ (titleAcc1 catalog query_terms limit).1,
        r.product.id ∈ (titleAcc1 catalog query_terms limit).2) ∧
      ((titleAcc1 catalog query_terms limit).1.map
        (fun r => r.product.id)).Nodup := by
  rw [titleAcc1]
  exact addPhase_inv _ _ _ ([], []) (by intro r hr; cases hr) (by simp)

theorem titleAcc2_inv (catalog : List Product) (query_terms : List String)
    (limit : Nat) :
    (∀ r ∈ (titleAcc2 catalog query_terms limit).1,
        r.product.id ∈ (titleAcc2 catalog query_terms limit).2) ∧
      ((titleAcc2 catalog query_terms limit).1.map
        (fun r => r.product.id)).Nodup := by
  rw [titleAcc2]
  dsimp only
  split_ifs
  · exact addPhase_inv _ _ _ _ (titleAcc1_inv catalog query_terms limit).1
      (titleAcc1_inv catalog query_terms limit).2
  · exact titleAcc1_inv catalog query_terms limit
  · exact titleAcc1_inv catalog query_terms limit

theorem titleAcc3_inv (catalog : List Product) (query_terms : List String)
    (limit : Nat) :
    (∀ r ∈ (titleAcc3 catalog query_terms limit).1,
        r.product.id ∈ (titleAcc3 catalog query_terms limit).2) ∧
      ((titleAcc3 catalog query_terms limit).1.map
        (fun r => r.product.id)).Nodup := by
  rw [titleAcc3]
  dsimp only
  split_ifs
  · exact addPhase_inv _ _ _ _ (titleAcc2_inv catalog query_terms limit).1
      (titleAcc2_inv catalog query_terms limit).2
  · exact titleAcc2_inv catalog query_terms limit
  · exact titleAcc2_inv catalog query_terms limit

theorem title_ids_nodup (catalog : List Product) (query_terms : List String)
    (limit : Nat) :
    ((get_title_match_products catalog query_terms limit).map
      (fun r => r.product.id)).Nodup := by
  rw [get_title_match_products]
  split_ifs
  · exact List.nodup_nil
  · exact (titleAcc3_inv catalog query_terms limit).2

theorem map_product_mk (query_terms : List String) :
    ∀ l : List Product,
      (l.map (fun p => ({ product := p, match_type := "other_field",
                          score := 0,
                          matched_words := some query_terms } :
          SearchResult))).map
        (fun r => r.product) = l
  | [] => rfl
  | p :: ps => by
    rw [List.map_cons, List.map_cons, map_product_mk query_terms ps]

theorem other_field_products_shape (catalog : List Product)
    (query_terms : List String) (exclude_ids : List Nat) (limit : Nat) :
    ((get_other_field_products catalog query_terms exclude_ids limit).map
        (fun r => r.product)).Sublist catalog ∧
      ∀ r ∈ get_other_field_products catalog query_terms exclude_ids limit,
        r.product.id ∉ exclude_ids := by
  rw [get_other_field_products]
  by_cases hq : query_terms = []
  · rw [if_pos hq]
    exact ⟨List.nil_sublist catalog, by intro r hr; cases hr⟩
  · rw [if_neg hq]
    dsimp only
    by_cases hc :
        List.filter (fun t => decide ¬ t.length < 2) query_terms = []
    · rw [if_pos hc]
      exact ⟨List.nil_sublist catalog, by intro r hr; cases hr⟩
    · rw [if_neg hc]
      constructor
      · rw [map_product_mk query_terms, dbQueryLimit]
        exact (List.take_sublist _ _).trans (List.filter_sublist catalog)
      · intro r hr
        rcases List.mem_map.1 hr with ⟨p, hp, rfl⟩
        rw [dbQueryLimit] at hp
        have hpf := List.mem_filter.1 (List.mem_of_mem_take hp)
        have hcond := hpf.2
        rw [Bool.and_eq_true] at hcond
        show p.id ∉ exclude_ids
        by_cases hex : exclude_ids = []
        · rw [hex]; exact List.not_mem_nil p.id
        · intro hmem
          have hcond2 := hcond.2
          have helem : exclude_ids.contains p.id = true :=
            List.elem_iff.2 hmem
          rw [if_pos (by simpa using hex), helem] at hcond2
          simp at hcond2

/-- C1: no catalog item identifier appears twice among the match
candidates: the title phases deduplicate by id via the seen-set, and
other-field matching excludes every id already matched in a title phase, so
the combined candidate list has pairwise-distinct ids (given that catalog
ids are unique, as the primary key guarantees). -/
theorem search_candidates_dedup (catalog : List Product)
    (query_terms : List String) (limitT limitO : Nat)
    (hcat : (catalog.map (fun p => p.id)).Nodup) :
    ((get_title_match_products catalog query_terms limitT ++
        get_other_field_products catalog query_terms
          ((get_title_match_products catalog query_terms limitT).map
            (fun r => r.product.id)) limitO).map
      (fun r => r.product.id)).Nodup := by
  rw [List.map_append, List.nodup_append]
  refine ⟨title_ids_nodup catalog query_terms limitT, ?_, ?_⟩
  · have hsub := (other_field_products_shape catalog query_terms
      ((get_title_match_products catalog query_terms limitT).map
        (fun r => r.product.id)) limitO).1
    have := (hsub.map (fun p => p.id)).nodup hcat
    rwa [List.map_map] at this
  · intro a ha hb
    rcases List.mem_map.1 hb with ⟨r, hr, rfl⟩
    exact (other_field_products_shape catalog query_terms
      ((get_title_match_products catalog query_terms limitT).map
        (fun x => x.product.id)) limitO).2 r hr ha

theorem search_candidates_dedup_witness :
    (([prodRedTea, prodRedCup, prodCupHolder].map
        (fun p => p.id)).Nodup) ∧
      ((get_title_match_products [prodRedTea, prodRedCup, prodCupHolder]
          ["red", "cup"] 2 ++
        get_other_field_products [prodRedTea, prodRedCup, prodCupHolder]
          ["red", "cup"]
          ((get_title_match_products [prodRedTea, prodRedCup, prodCupHolder]
            ["red", "cup"] 2).map (fun r => r.product.id)) 2).map
        (fun r => r.product.id)).Nodup :=
  ⟨by decide, search_candidates_dedup [prodRedTea, prodRedCup, prodCupHolder]
    ["red", "cup"] 2 2 (by decide)⟩

theorem dbQueryLimit_length_le (catalog : List Product)
    (cond : Product → Bool) (n : Nat) :
    (dbQueryLimit catalog cond n).length ≤ n := by
  rw [dbQueryLimit, List.length_take]
  exact min_le_left _ _

theorem addPhase_length_le (mt : String) (query_terms : List String) :
    ∀ (ps : List Product) (acc : List SearchResult × List Nat),
      (addPhase mt query_terms ps acc).1.length ≤ acc.1.length + ps.length
  | [], acc => Nat.le_add_right _ _
  | p :: ps, acc => by
    rw [addPhase]
    by_cases hc : acc.2.contains p.id = true
    · rw [if_pos hc]
      have h := addPhase_length_le mt query_terms ps acc
      rw [List.length_cons]
      omega
    · rw [if_neg hc]
      refine le_trans (addPhase_length_le mt query_terms ps _) ?_
      simp only [List.length_append, List.length_cons, List.length_singleton,
        List.length_nil]
      omega

theorem titleAcc1_length_le (catalog : List Product)
    (query_terms : List String) (limit : Nat) :
    (titleAcc1 catalog query_terms limit).1.length ≤ limit / 2 := by
  rw [titleAcc1]
  refine le_trans (addPhase_length_le _ _ _ _) ?_
  simpa using dbQueryLimit_length_le catalog _ (limit / 2)

theorem titleAcc2_length_le (catalog : List Product)
    (query_terms : List String) (limit : Nat) :
    (titleAcc2 catalog query_terms limit).1.length ≤ limit := by
  rw [titleAcc2]
  dsimp only
  split_ifs with h1 h2
  · refine le_trans (addPhase_length_le _ _ _ _) ?_
    have h := dbQueryLimit_length_le catalog
      (fun p => p.is_active && (longTermsLower query_terms).all
        (fun t => strContains (pyLower p.title) t))
      (limit - (titleAcc1 catalog query_terms limit).1.length)
    omega
  · exact le_trans (titleAcc1_length_le catalog query_terms limit)
      (Nat.div_le_self limit 2)
  · exact le_trans (titleAcc1_length_le catalog query_terms limit)
      (Nat.div_le_self limit 2)

theorem titleAcc3_length_le (catalog : List Product)
    (query_terms : List String) (limit : Nat) :
    (titleAcc3 catalog query_terms limit).1.length ≤ limit := by
  rw [titleAcc3]
  dsimp only
  split_ifs with h1 h2
  · refine le_trans (addPhase_length_le _ _ _ _) ?_
    have h := dbQueryLimit_length_le catalog
      (fun p => p.is_active && (longTermsLower query_terms).any
        (fun t => strContains (pyLower p.title) t))
      (limit - (titleAcc2 catalog query_terms limit).1.length)
    omega
  · exact titleAcc2_length_le catalog query_terms limit
  · exact titleAcc2_length_le catalog query_terms limit

/-- C5 counterexample: with `limit = 2` the phase cascade stops once the
accumulated candidate count reaches `limit` (2), not the claimed target
`2×limit` (4): after phases 1–2 accumulate two candidates, the phase-3
catalog query is not issued even though the count is still below `2×limit`,
the phase-3 condition list is nonempty, and the catalog holds a further
phase-3 candidate (`prodCupHolder` satisfies the some-words predicate yet
is absent from the results). -/
theorem phase_gate_counterexample :
    (titleAcc2 [prodRedTea, prodRedCup, prodCupHolder]
        ["red", "cup"] 2).1.length = 2 ∧
      (titleAcc2 [prodRedTea, prodRedCup, prodCupHolder]
        ["red", "cup"] 2).1.length < 2 * 2 ∧
      titleAcc3 [prodRedTea, prodRedCup, prodCupHolder] ["red", "cup"] 2 =
        titleAcc2 [prodRedTea, prodRedCup, prodCupHolder] ["red", "cup"] 2 ∧
      longTermsLower ["red", "cup"] ≠ [] ∧
      (prodCupHolder.is_active && (longTermsLower ["red", "cup"]).any
        (fun t => strContains (pyLower prodCupHolder.title) t)) = true ∧
      ∀ r ∈ (titleAcc3 [prodRedTea, prodRedCup, prodCupHolder]
          ["red", "cup"] 2).1,
        r.product.id ≠ prodCupHolder.id := by
  refine ⟨by decide, by decide, by decide, by decide, by decide, by decide⟩

/-- C5 (amended): each looser title phase executes only while the
accumulated candidate count is below the function's `limit` parameter —
once phase 1 (resp. phases 1–2) accumulates `limit` candidates, phase 2
(resp. phase 3) leaves the state untouched — and the accumulated count can
never exceed `limit` (so a `2×limit` target is reached only if the caller
passes `2×limit` as the parameter). -/
theorem phase_gate_target (catalog : List Product)
    (query_terms : List String) (limit : Nat) :
    (limit ≤ (titleAcc1 catalog query_terms limit).1.length →
      titleAcc2 catalog query_terms limit =
        titleAcc1 catalog query_terms limit) ∧
    (limit ≤ (titleAcc2 catalog query_terms limit).1.length →
      titleAcc3 catalog query_terms limit =
        titleAcc2 catalog query_terms limit) ∧
    (titleAcc3 catalog query_terms limit).1.length ≤ limit := by
  refine ⟨?_, ?_, titleAcc3_length_le catalog query_terms limit⟩
  · intro h
    rw [titleAcc2]
    dsimp only
    rw [if_neg (not_lt.2 h)]
  · intro h
    rw [titleAcc3]
    dsimp only
    rw [if_neg (not_lt.2 h)]

theorem phase_gate_target_witness :
    titleAcc2 [] ["ab"] 0 = titleAcc1 [] ["ab"] 0 ∧
      titleAcc3 [] ["ab"] 0 = titleAcc2 [] ["ab"] 0 ∧
      (titleAcc3 [] ["ab"] 0).1.length ≤ 0 :=
  ⟨(phase_gate_target [] ["ab"] 0).1 (by decide),
   (phase_gate_target [] ["ab"] 0).2.1 (by decide),
   (phase_gate_target [] ["ab"] 0).2.2⟩
